import Mathlib

/-!
Verification of the `kss` augmentation orchestration pipeline
(`kss/_modules/augmentation/augment.py`).

The orchestrator `augment` and the per-text pipeline `_augment` are embedded
from the source.  Dynamic (Python) parameter values are modelled by `PyVal`;
side effects (stage invocations, the verbose-warning log, the diff printing)
are modelled by an explicit event trace so that statements such as "no
downstream stage is invoked" and "the error is surfaced before any stage
runs" are about real data.  The external collaborators (synonym replacement,
josa correction, spacing correction) are abstracted as an arbitrary `Stages`
record, as the spec treats them as external.  The sanity-check helpers and
the dispatch helper live outside the provided sources and are modelled from
the spec (each is marked so in its doc comment).
-/

/-- A dynamically typed Python-level parameter value.  Only the types that
the augmentation entry point can receive are represented. -/
inductive PyVal where
  | str : String → PyVal
  | float : Int → PyVal
  | bool : Bool → PyVal
  | int : Int → PyVal
deriving DecidableEq

/-- The Python-level type tag of a value. -/
inductive PyType where
  | float : PyType
  | bool : PyType
  | str : PyType
  | int : PyType
deriving DecidableEq

/-- Type of a dynamic value. -/
def typeOf : PyVal → PyType
  | .str _ => .str
  | .float _ => .float
  | .bool _ => .bool
  | .int _ => .int

/-- Extract the boolean payload of a value known to be a bool. -/
def asBool : PyVal → Bool
  | .bool b => b
  | _ => false

/-- The `text` argument: a single string or an ordered collection of
strings (list/tuple). -/
inductive TextInput where
  | single : String → TextInput
  | batch : List String → TextInput
deriving DecidableEq

/-- Cardinality of the input: 1 for a single string, length for a batch. -/
def cardinality : TextInput → Nat
  | .single _ => 1
  | .batch l => l.length

/-- Errors raised by the validation helpers (spec §7 taxonomy). -/
inductive KssError where
  | typeMismatch : String → KssError
  | unsupportedBackend : String → KssError
  | workerPlanError : KssError
deriving DecidableEq

/-- Observable side effects of one `augment` call, in order of occurrence:
invocations of the three pipeline stages (each event records the text the
stage was invoked on), the verbose-incompatibility warning, and the diff
rendering printed in verbose mode. -/
inductive Event where
  | replaceEv : String → Event
  | josaEv : String → Event
  | spacingEv : String → Event
  | warnVerboseEv : Event
  | diffEv : String → String → Event
deriving DecidableEq

/-- The external collaborators of the orchestrator (spec §6): synonym
replacement (`SynonymReplacement(backend)(text, p, verbose)`), josa
correction and spacing correction.  They are arbitrary: every theorem holds
for every choice of stage behaviour. -/
structure Stages where
  replace : String → String → PyVal → Bool → String
  correct_josa : String → String
  correct_spacing : String → String

/-- Modelled from the spec: `_check_text` (sanity-check helper, not in the
provided sources).  "Short-circuits with a pass-through result when the
input text is empty/already terminal": returns the text together with the
`finish` flag, which is set exactly on the empty string and the empty
collection. -/
def _check_text : TextInput → TextInput × Bool
  | .single s => (.single s, s.isEmpty)
  | .batch l => (.batch l, l.isEmpty)

/-- Modelled from the spec: `validate_type(value, name, expected_type) ->
value | raises` — a mismatched type fails with a TypeMismatch error naming
the offending parameter. -/
def _check_type (v : PyVal) (name : String) (t : PyType) : Except KssError PyVal :=
  if typeOf v = t then .ok v else .error (.typeMismatch name)

/-- Modelled from the spec: `resolve_worker_count(inputs, requested) ->
concrete plan | raises`.  `none` is the non-parallel (direct) plan, the
Python `False`; `some n` is a parallel plan with `n` workers.  Requesting
parallelism for a single text resolves to the non-parallel plan; "auto"
selects a heuristic worker count from the batch size; a non-positive or
ill-typed request fails with a WorkerPlanError. -/
def _check_num_workers (text : TextInput) (req : PyVal) : Except KssError (Option Nat) :=
  match req with
  | .str s =>
      if s = "auto" then
        if cardinality text ≤ 1 then .ok none
        else .ok (some (min (cardinality text) 8))
      else .error .workerPlanError
  | .int n =>
      if n ≤ 0 then .error .workerPlanError
      else if cardinality text ≤ 1 ∨ n = 1 then .ok none
      else .ok (some (min n.toNat (cardinality text)))
  | _ => .error .workerPlanError

/-- Modelled from the spec: `validate_backend_name(name) -> void | raises` —
`backend` must name one of the two supported morphological engines
(`"mecab"`, `"pecab"`) or `"auto"`; any other value fails with an
UnsupportedBackend error. -/
def _check_backend_mecab_pecab_only (backend : String) : Except KssError Unit :=
  if backend = "auto" ∨ backend = "mecab" ∨ backend = "pecab" then .ok ()
  else .error (.unsupportedBackend backend)

/-- Modelled from the spec: `dispatch(fn, inputs, worker_count) -> ordered
results` — a parallel map that preserves input order and input shape; the
result at position `i` is `fn` applied to the input at position `i`,
regardless of the worker plan or completion order.  Returns the reassembled
output together with the concatenated event traces. -/
def _run_job (f : String → String × List Event) (inputs : TextInput)
    (nw : Option Nat) : TextInput × List Event :=
  match nw, inputs with
  | _, .single s => (.single (f s).1, (f s).2)
  | _, .batch l => (.batch (l.map fun t => (f t).1), (l.map fun t => (f t).2).flatten)

/-- The per-text pipeline `_augment` (embedded from the source).  Runs
synonym replacement, then josa correction if enabled, then spacing
correction if enabled, then in verbose mode prints the diff between the
original and the final text.  The returned trace records these effects in
order. -/
def _augment (st : Stages) (text : String) (ratio : PyVal)
    (space_norm josa_norm : Bool) (backend : String) (verbose : Bool) :
    String × List Event :=
  let orig_text := text
  let t1 := st.replace backend text ratio verbose
  let t2 := if josa_norm then st.correct_josa t1 else t1
  let t3 := if space_norm then st.correct_spacing t2 else t2
  (t3,
    [Event.replaceEv text]
      ++ (if josa_norm then [Event.josaEv t1] else [])
      ++ (if space_norm then [Event.spacingEv t2] else [])
      ++ (if verbose then [Event.diffEv orig_text t3] else []))

/-- The entry point `augment` (embedded from the source).  Returns the event
trace of the call together with either the augmented output or the
validation error.  The steps mirror the source line by line: terminal-input
short-circuit, the four scalar type checks, worker-count resolution, backend
validation, the forced disabling of verbose under a parallel plan (with a
warning), and dispatch of the per-text pipeline. -/
def augment (st : Stages) (text : TextInput) (ratio sp_norm jo_norm nw : PyVal)
    (backend : String) (verbose : PyVal) :
    List Event × Except KssError TextInput :=
  match _check_text text with
  | (text, true) => ([], .ok text)
  | (text, false) =>
    match _check_type ratio "replacement_ratio" .float with
    | .error e => ([], .error e)
    | .ok ratio =>
      match _check_type sp_norm "space_normalization" .bool with
      | .error e => ([], .error e)
      | .ok sp_norm =>
        match _check_type jo_norm "josa_normalization" .bool with
        | .error e => ([], .error e)
        | .ok jo_norm =>
          match _check_type verbose "verbose" .bool with
          | .error e => ([], .error e)
          | .ok verbose =>
            match _check_num_workers text nw with
            | .error e => ([], .error e)
            | .ok nwPlan =>
              match _check_backend_mecab_pecab_only backend with
              | .error e => ([], .error e)
              | .ok _ =>
                let vb0 := asBool verbose
                let vbWarn : Bool × List Event :=
                  if nwPlan.isSome && vb0 then (false, [Event.warnVerboseEv])
                  else (vb0, [])
                let out := _run_job
                  (fun t => _augment st t ratio (asBool sp_norm) (asBool jo_norm)
                              backend vbWarn.1)
                  text nwPlan
                (vbWarn.2 ++ out.2, .ok out.1)

/-- The output of stage 1 (synonym replacement) of the per-text pipeline. -/
def stage1_output (st : Stages) (text : String) (ratio : PyVal)
    (backend : String) (verbose : Bool) : String :=
  st.replace backend text ratio verbose

/-- The output of stage 2 (josa correction, when enabled) of the per-text
pipeline, applied to the stage-1 output. -/
def stage2_output (st : Stages) (text : String) (ratio : PyVal)
    (josa_norm : Bool) (backend : String) (verbose : Bool) : String :=
  if josa_norm then st.correct_josa (stage1_output st text ratio backend verbose)
  else stage1_output st text ratio backend verbose

/-- The output of stage 3 (spacing correction, when enabled) of the per-text
pipeline, applied to the stage-2 output.  Note that no diff-reporting step
enters this value. -/
def stage3_output (st : Stages) (text : String) (ratio : PyVal)
    (space_norm josa_norm : Bool) (backend : String) (verbose : Bool) : String :=
  if space_norm then
    st.correct_spacing (stage2_output st text ratio josa_norm backend verbose)
  else stage2_output st text ratio josa_norm backend verbose

/-- Whether an event is a pipeline-stage invocation (as opposed to the
warning or the diff rendering). -/
def isStageEvent : Event → Bool
  | .replaceEv _ => true
  | .josaEv _ => true
  | .spacingEv _ => true
  | _ => false

/-- Whether a resolved worker plan is parallel. -/
def isParallelPlan : Except KssError (Option Nat) → Bool
  | .ok (some _) => true
  | _ => false

/-- Concrete stage behaviours used to instantiate universally quantified
theorems at a computable point. -/
def demoStages : Stages where
  replace := fun _ t _ _ => String.append t "!"
  correct_josa := fun t => String.append t "j"
  correct_spacing := fun t => String.append t "s"

/-! ## Helper lemmas about the per-text pipeline trace -/

/-- When the effective verbose flag is off, the per-text pipeline renders no
diff. -/
theorem diffEv_not_mem_of_not_verbose (st : Stages) (text : String)
    (ratio : PyVal) (sp jo : Bool) (be : String) (o f : String) :
    Event.diffEv o f ∉ (_augment st text ratio sp jo be false).2 := by
  cases sp <;> cases jo <;> simp [_augment]

/-- The per-text pipeline never emits the verbose-incompatibility warning:
that warning belongs to the orchestrator. -/
theorem warnEv_not_mem_pipeline (st : Stages) (text : String) (ratio : PyVal)
    (sp jo : Bool) (be : String) (vb : Bool) :
    Event.warnVerboseEv ∉ (_augment st text ratio sp jo be vb).2 := by
  cases sp <;> cases jo <;> cases vb <;> simp [_augment]

/-- In verbose mode the per-text pipeline renders the diff between the
original text and the final (stage-3) output. -/
theorem diffEv_mem_of_verbose (st : Stages) (text : String) (ratio : PyVal)
    (sp jo : Bool) (be : String) :
    Event.diffEv text (stage3_output st text ratio sp jo be true)
      ∈ (_augment st text ratio sp jo be true).2 := by
  cases sp <;> cases jo <;>
    simp [_augment, stage1_output, stage2_output, stage3_output]

/-! ## Claim theorems about the per-text pipeline -/

/-- C3: for every single text unit, the pipeline runs in the fixed order —
synonym replacement first (the trace starts with the replacement event, so
no stage runs before it), then josa correction on the stage-1 output iff
`josa_normalization` is enabled, then spacing correction on the stage-2
output iff `space_normalization` is enabled; the returned value is the
stage-3 output. -/
theorem _augment_fixed_stage_order (st : Stages) (text : String) (ratio : PyVal)
    (sp jo : Bool) (be : String) (vb : Bool) :
    ((_augment st text ratio sp jo be vb).2).head? = some (Event.replaceEv text) ∧
    ((_augment st text ratio sp jo be vb).2).filter isStageEvent =
      [Event.replaceEv text]
        ++ (if jo then [Event.josaEv (stage1_output st text ratio be vb)] else [])
        ++ (if sp then [Event.spacingEv (stage2_output st text ratio jo be vb)] else []) ∧
    (_augment st text ratio sp jo be vb).1 = stage3_output st text ratio sp jo be vb := by
  refine ⟨?_, ?_, ?_⟩ <;>
    cases sp <;> cases jo <;> cases vb <;>
      simp [_augment, stage1_output, stage2_output, stage3_output, isStageEvent]

/-- C7: with both normalizations disabled, the per-text pipeline returns
exactly the raw synonym-replacement output, and neither the josa stage nor
the spacing stage is invoked. -/
theorem _augment_disabled_normalization_raw (st : Stages) (text : String)
    (ratio : PyVal) (be : String) (vb : Bool) :
    (_augment st text ratio false false be vb).1 = stage1_output st text ratio be vb ∧
    (∀ t, Event.josaEv t ∉ (_augment st text ratio false false be vb).2) ∧
    (∀ t, Event.spacingEv t ∉ (_augment st text ratio false false be vb).2) := by
  cases vb <;> simp [_augment, stage1_output]

/-- C8: the verbose diff report is a side effect only — the value returned
by the per-text pipeline is the stage-3 output (a value into which no
diff-reporting step enters), for either setting of `verbose`, and the only
non-stage event in the trace is the diff rendering, present exactly in
verbose mode and comparing the original input against the final output. -/
theorem _augment_diff_is_side_effect_only (st : Stages) (text : String)
    (ratio : PyVal) (sp jo : Bool) (be : String) (vb : Bool) :
    (_augment st text ratio sp jo be vb).1 = stage3_output st text ratio sp jo be vb ∧
    ((_augment st text ratio sp jo be vb).2).filter (fun e => ! isStageEvent e) =
      (if vb then [Event.diffEv text (stage3_output st text ratio sp jo be vb)] else []) := by
  cases sp <;> cases jo <;> cases vb <;>
    simp [_augment, stage1_output, stage2_output, stage3_output, isStageEvent]

/-- A non-terminal input passes the text check unchanged with `finish`
false. -/
theorem _check_text_eq (text : TextInput) (h : (_check_text text).2 = false) :
    _check_text text = (text, false) := by
  cases text <;> simp_all [_check_text]

/-- C9: for a single-string text argument, worker-count resolution never
yields a parallel plan, whatever the `num_workers` request is — including a
request for more than one worker. -/
theorem single_text_never_parallel (s : String) (req : PyVal) :
    isParallelPlan (_check_num_workers (.single s) req) = false := by
  cases req with
  | str v =>
      by_cases h : v = "auto" <;>
        simp [_check_num_workers, cardinality, isParallelPlan, h]
  | int n =>
      by_cases h : n ≤ 0 <;>
        simp [_check_num_workers, cardinality, isParallelPlan, h]
  | float x => rfl
  | bool b => rfl

/-- C2: for every empty or otherwise terminal text input and all valid
scalar parameter values, `augment` returns the input unchanged with an empty
event trace — no downstream stage, no josa/spacing correction, no diff
report is invoked. -/
theorem augment_terminal_passthrough (st : Stages) (r sp jo nw : PyVal)
    (be : String) (vb : PyVal) (hr : typeOf r = .float)
    (hsp : typeOf sp = .bool) (hjo : typeOf jo = .bool)
    (hvb : typeOf vb = .bool) :
    augment st (.single "") r sp jo nw be vb = ([], .ok (.single "")) ∧
    augment st (.batch []) r sp jo nw be vb = ([], .ok (.batch [])) :=
  ⟨rfl, rfl⟩

/-- C2 witness. -/
theorem augment_terminal_passthrough_witness :
    augment demoStages (.single "") (.float 0) (.bool true) (.bool true)
        (.str "auto") "auto" (.bool false) = ([], .ok (.single "")) ∧
    augment demoStages (.batch []) (.float 0) (.bool true) (.bool true)
        (.str "auto") "auto" (.bool false) = ([], .ok (.batch [])) :=
  augment_terminal_passthrough demoStages (.float 0) (.bool true) (.bool true)
    (.str "auto") "auto" (.bool false) rfl rfl rfl rfl

/-- C10: the terminal-input pass-through happens before any parameter
validation — with arbitrary (in particular ill-typed) scalar parameters, an
arbitrary backend name and an arbitrary `num_workers` request, a terminal
text input is returned unchanged and no error is raised. -/
theorem augment_terminal_skips_validation (st : Stages) (r sp jo nw : PyVal)
    (be : String) (vb : PyVal) :
    augment st (.single "") r sp jo nw be vb = ([], .ok (.single "")) ∧
    augment st (.batch []) r sp jo nw be vb = ([], .ok (.batch [])) :=
  ⟨rfl, rfl⟩

/-- C5: for every non-terminal input, a scalar parameter whose value does
not match its declared type makes `augment` fail with a TypeMismatch error
naming that parameter (earlier-checked parameters being well typed), and the
event trace is empty — the error is surfaced before any pipeline stage
runs. -/
theorem augment_type_mismatch_named (st : Stages) (text : TextInput)
    (hterm : (_check_text text).2 = false) (nw : PyVal) (be : String) :
    (∀ r, typeOf r ≠ .float → ∀ sp jo vb,
        augment st text r sp jo nw be vb
          = ([], .error (.typeMismatch "replacement_ratio"))) ∧
    (∀ x : Int, ∀ sp, typeOf sp ≠ .bool → ∀ jo vb,
        augment st text (.float x) sp jo nw be vb
          = ([], .error (.typeMismatch "space_normalization"))) ∧
    (∀ x : Int, ∀ b : Bool, ∀ jo, typeOf jo ≠ .bool → ∀ vb,
        augment st text (.float x) (.bool b) jo nw be vb
          = ([], .error (.typeMismatch "josa_normalization"))) ∧
    (∀ x : Int, ∀ b c : Bool, ∀ vb, typeOf vb ≠ .bool →
        augment st text (.float x) (.bool b) (.bool c) nw be vb
          = ([], .error (.typeMismatch "verbose"))) := by
  refine ⟨?_, ?_, ?_, ?_⟩
  · intro r hr sp jo vb
    unfold augment
    rw [_check_text_eq text hterm]
    cases r with
    | float y => exact absurd rfl hr
    | str v => rfl
    | bool b => rfl
    | int n => rfl
  · intro x sp hsp jo vb
    unfold augment
    rw [_check_text_eq text hterm]
    cases sp with
    | bool b => exact absurd rfl hsp
    | str v => rfl
    | float y => rfl
    | int n => rfl
  · intro x b jo hjo vb
    unfold augment
    rw [_check_text_eq text hterm]
    cases jo with
    | bool b2 => exact absurd rfl hjo
    | str v => rfl
    | float y => rfl
    | int n => rfl
  · intro x b c vb hvb
    unfold augment
    rw [_check_text_eq text hterm]
    cases vb with
    | bool b2 => exact absurd rfl hvb
    | str v => rfl
    | float y => rfl
    | int n => rfl

/-- C5 witness. -/
theorem augment_type_mismatch_named_witness :
    augment demoStages (.single "가") (.str "0.3") (.bool true) (.bool true)
        (.str "auto") "auto" (.bool false)
      = ([], .error (.typeMismatch "replacement_ratio")) :=
  (augment_type_mismatch_named demoStages (.single "가") (by decide)
      (.str "auto") "auto").1 (.str "0.3") (by decide) (.bool true) (.bool true)
    (.bool false)

/-- Worker-count resolution never fails on the `"auto"` request. -/
theorem _check_num_workers_auto_ok (text : TextInput) :
    _check_num_workers text (.str "auto")
      = .ok (if cardinality text ≤ 1 then none
             else some (min (cardinality text) 8)) := by
  by_cases h : cardinality text ≤ 1 <;> simp [_check_num_workers, h]

/-- C6: for every non-terminal input with well-typed scalar parameters and a
valid worker request, a backend name other than the two supported engines
and `"auto"` makes `augment` fail with an UnsupportedBackend error naming
it, with an empty event trace — before dispatch, before any pipeline stage
runs on any text unit. -/
theorem augment_unsupported_backend_before_dispatch (st : Stages)
    (text : TextInput) (hterm : (_check_text text).2 = false) (x : Int)
    (sp jo vb : Bool) (be : String)
    (hbe : be ≠ "auto" ∧ be ≠ "mecab" ∧ be ≠ "pecab") :
    augment st text (.float x) (.bool sp) (.bool jo) (.str "auto") be (.bool vb)
      = ([], .error (.unsupportedBackend be)) := by
  unfold augment
  rw [_check_text_eq text hterm]
  simp only [_check_num_workers_auto_ok]
  unfold _check_backend_mecab_pecab_only
  rw [if_neg (show ¬(be = "auto" ∨ be = "mecab" ∨ be = "pecab") by
        rcases hbe with ⟨h1, h2, h3⟩
        simp [h1, h2, h3])]
  rfl

/-- C6 witness. -/
theorem augment_unsupported_backend_before_dispatch_witness :
    augment demoStages (.single "가") (.float 0) (.bool true) (.bool true)
        (.str "auto") "klt" (.bool false)
      = ([], .error (.unsupportedBackend "klt")) :=
  augment_unsupported_backend_before_dispatch demoStages (.single "가")
    (by decide) 0 true true false "klt" (by decide)

/-- Unfolding of a successful `augment` call: with a non-terminal input,
well-typed scalar parameters, a resolved worker plan and a supported
backend, the call emits the verbose warning exactly when a parallel plan
meets `verbose = true`, forces the effective verbose flag to false in that
case, and dispatches the per-text pipeline over the input. -/
theorem augment_ok_unfold (st : Stages) (text : TextInput) (r sp jo nw : PyVal)
    (be : String) (vb : PyVal) (plan : Option Nat)
    (hterm : (_check_text text).2 = false)
    (hr : typeOf r = .float) (hsp : typeOf sp = .bool) (hjo : typeOf jo = .bool)
    (hvb : typeOf vb = .bool)
    (hnw : _check_num_workers text nw = .ok plan)
    (hbe : be = "auto" ∨ be = "mecab" ∨ be = "pecab") :
    augment st text r sp jo nw be vb =
      ((if plan.isSome && asBool vb then [Event.warnVerboseEv] else [])
          ++ (_run_job (fun t => _augment st t r (asBool sp) (asBool jo) be
                (if plan.isSome && asBool vb then false else asBool vb))
              text plan).2,
        .ok (_run_job (fun t => _augment st t r (asBool sp) (asBool jo) be
                (if plan.isSome && asBool vb then false else asBool vb))
              text plan).1) := by
  unfold augment
  rw [_check_text_eq text hterm]
  cases r <;> simp [typeOf] at hr <;>
    cases sp <;> simp [typeOf] at hsp <;>
      cases jo <;> simp [typeOf] at hjo <;>
        cases vb <;> simp [typeOf] at hvb
  rename_i vbb
  simp only [hnw]
  unfold _check_backend_mecab_pecab_only
  rw [if_pos hbe]
  cases plan <;> cases vbb <;> rfl

/-- The warning event never occurs in a dispatched batch of per-text
pipeline traces. -/
theorem warnEv_not_mem_flatten (st : Stages) (r : PyVal) (sp jo : Bool)
    (be : String) (vb : Bool) (l : List String) :
    Event.warnVerboseEv
      ∉ (l.map fun t => (_augment st t r sp jo be vb).2).flatten := by
  intro h
  rw [List.mem_flatten] at h
  obtain ⟨tr, htr, hmem⟩ := h
  rw [List.mem_map] at htr
  obtain ⟨u, _, rfl⟩ := htr
  exact warnEv_not_mem_pipeline st u r sp jo be vb hmem

/-- No diff event occurs in a dispatched batch of per-text pipeline traces
when the effective verbose flag is off. -/
theorem diffEv_not_mem_flatten (st : Stages) (r : PyVal) (sp jo : Bool)
    (be : String) (l : List String) (o f : String) :
    Event.diffEv o f
      ∉ (l.map fun t => (_augment st t r sp jo be false).2).flatten := by
  intro h
  rw [List.mem_flatten] at h
  obtain ⟨tr, htr, hmem⟩ := h
  rw [List.mem_map] at htr
  obtain ⟨u, _, rfl⟩ := htr
  exact diffEv_not_mem_of_not_verbose st u r sp jo be o f hmem

/-- C4: for every call with `verbose = true` where worker-count resolution
selects a parallel plan, the warning is emitted and the effective verbose
flag passed to the per-text pipeline is false — no diff is rendered for any
text unit; when a non-parallel plan is selected, the verbose flag passes
through unchanged: no warning, and for a single string the per-text pipeline
renders the diff of that string. -/
theorem augment_parallel_forces_verbose_off (st : Stages) (x : Int)
    (sp jo : Bool) (be : String)
    (hbe : be = "auto" ∨ be = "mecab" ∨ be = "pecab")
    (text : TextInput) (hterm : (_check_text text).2 = false) (nw : PyVal) :
    (∀ k, _check_num_workers text nw = .ok (some k) →
      Event.warnVerboseEv
          ∈ (augment st text (.float x) (.bool sp) (.bool jo) nw be (.bool true)).1 ∧
        ∀ o f, Event.diffEv o f
          ∉ (augment st text (.float x) (.bool sp) (.bool jo) nw be (.bool true)).1) ∧
    (_check_num_workers text nw = .ok none →
      Event.warnVerboseEv
          ∉ (augment st text (.float x) (.bool sp) (.bool jo) nw be (.bool true)).1 ∧
        ∀ s, text = .single s →
          Event.diffEv s (stage3_output st s (.float x) sp jo be true)
            ∈ (augment st text (.float x) (.bool sp) (.bool jo) nw be (.bool true)).1) := by
  constructor
  · intro k hk
    rw [augment_ok_unfold st text (.float x) (.bool sp) (.bool jo) nw be
      (.bool true) (some k) hterm rfl rfl rfl rfl hk hbe]
    constructor
    · exact List.mem_cons_self _ _
    · intro o f hmem
      cases text with
      | single s =>
        rcases List.mem_cons.mp hmem with h | h
        · exact Event.noConfusion h
        · exact diffEv_not_mem_of_not_verbose st s (.float x) sp jo be o f h
      | batch l =>
        rcases List.mem_cons.mp hmem with h | h
        · exact Event.noConfusion h
        · exact diffEv_not_mem_flatten st (.float x) sp jo be l o f h
  · intro hk
    rw [augment_ok_unfold st text (.float x) (.bool sp) (.bool jo) nw be
      (.bool true) none hterm rfl rfl rfl rfl hk hbe]
    constructor
    · cases text with
      | single s => exact warnEv_not_mem_pipeline st s (.float x) sp jo be true
      | batch l => exact warnEv_not_mem_flatten st (.float x) sp jo be true l
    · intro s hs
      subst hs
      exact diffEv_mem_of_verbose st s (.float x) sp jo be

/-- C4 witness. -/
theorem augment_parallel_forces_verbose_off_witness :
    (Event.warnVerboseEv ∈ (augment demoStages (.batch ["가", "나다"]) (.float 0)
        (.bool true) (.bool true) (.int 2) "auto" (.bool true)).1 ∧
      ∀ o f, Event.diffEv o f ∉ (augment demoStages (.batch ["가", "나다"]) (.float 0)
        (.bool true) (.bool true) (.int 2) "auto" (.bool true)).1) ∧
    (Event.warnVerboseEv ∉ (augment demoStages (.single "가") (.float 0)
        (.bool true) (.bool true) (.int 2) "auto" (.bool true)).1 ∧
      Event.diffEv "가" (stage3_output demoStages "가" (.float 0) true true "auto" true)
        ∈ (augment demoStages (.single "가") (.float 0)
            (.bool true) (.bool true) (.int 2) "auto" (.bool true)).1) :=
  ⟨(augment_parallel_forces_verbose_off demoStages 0 true true "auto" (Or.inl rfl)
      (.batch ["가", "나다"]) rfl (.int 2)).1 2 rfl,
    let h2 := (augment_parallel_forces_verbose_off demoStages 0 true true "auto"
      (Or.inl rfl) (.single "가") rfl (.int 2)).2 rfl
    ⟨h2.1, h2.2 "가" rfl⟩⟩

/-- Every `Except` value is an error or a success. -/
theorem except_cases {a : Type} (x : Except KssError a) :
    (∃ e, x = .error e) ∨ ∃ v, x = .ok v := by
  cases x
  · exact .inl ⟨_, rfl⟩
  · exact .inr ⟨_, rfl⟩

/-- The text check returns the input text unchanged. -/
theorem _check_text_fst (text : TextInput) : (_check_text text).1 = text := by
  cases text <;> rfl

/-- C1: the output shape mirrors the input shape — whenever `augment`
succeeds, there is a single per-text transformation `f` such that a single
string yields the single string `f s`, and a batch yields a list of the same
length whose element at every position `i` is `f` applied to the input at
position `i`. -/
theorem augment_shape_mirrors_input (st : Stages) (text : TextInput)
    (r sp jo nw : PyVal) (be : String) (vb : PyVal) (out : TextInput)
    (h : (augment st text r sp jo nw be vb).2 = .ok out) :
    ∃ f : String → String,
      (∀ s, text = .single s → out = .single (f s)) ∧
      (∀ l, text = .batch l →
        ∃ l2, out = .batch l2 ∧ l2.length = l.length ∧
          ∀ i : Nat, l2[i]? = l[i]?.map f) := by
  unfold augment at h
  split at h
  · rename_i t2 heq
    have ht : t2 = text := by rw [← _check_text_fst text, heq]
    subst ht
    simp only [Except.ok.injEq] at h
    subst h
    refine ⟨fun u => u, ?_, ?_⟩
    · intro s hs
      exact hs
    · intro l hl
      refine ⟨l, hl, rfl, ?_⟩
      intro i
      cases l[i]? <;> rfl
  · rename_i t2 heq
    have ht : t2 = text := by rw [← _check_text_fst text, heq]
    subst ht
    rcases except_cases (_check_type r "replacement_ratio" PyType.float)
      with ⟨e, h1⟩ | ⟨ratio2, h1⟩
    · simp only [h1] at h
      exact absurd h (by simp)
    simp only [h1] at h
    rcases except_cases (_check_type sp "space_normalization" PyType.bool)
      with ⟨e, h2⟩ | ⟨sp2, h2⟩
    · simp only [h2] at h
      exact absurd h (by simp)
    simp only [h2] at h
    rcases except_cases (_check_type jo "josa_normalization" PyType.bool)
      with ⟨e, h3⟩ | ⟨jo2, h3⟩
    · simp only [h3] at h
      exact absurd h (by simp)
    simp only [h3] at h
    rcases except_cases (_check_type vb "verbose" PyType.bool)
      with ⟨e, h4⟩ | ⟨vb2, h4⟩
    · simp only [h4] at h
      exact absurd h (by simp)
    simp only [h4] at h
    rcases except_cases (_check_num_workers t2 nw) with ⟨e, h5⟩ | ⟨plan, h5⟩
    · simp only [h5] at h
      exact absurd h (by simp)
    simp only [h5] at h
    rcases except_cases (_check_backend_mecab_pecab_only be) with ⟨e, h6⟩ | ⟨u, h6⟩
    · simp only [h6] at h
      exact absurd h (by simp)
    simp only [h6] at h
    simp only [Except.ok.injEq] at h
    subst h
    refine ⟨fun u2 => (_augment st u2 ratio2 (asBool sp2) (asBool jo2) be
        (if plan.isSome && asBool vb2 then (false, [Event.warnVerboseEv])
         else (asBool vb2, [])).1).1, ?_, ?_⟩
    · intro s hs
      subst hs
      rfl
    · intro l hl
      subst hl
      refine ⟨_, rfl, ?_, ?_⟩
      · simp [_run_job]
      · intro i
        simp [_run_job, List.getElem?_map]

/-- C1 witness. -/
theorem augment_shape_mirrors_input_witness :
    ∃ f : String → String,
      (∀ s, (TextInput.batch ["가", "나다"]) = .single s →
        (TextInput.batch ["가!js", "나다!js"]) = .single (f s)) ∧
      (∀ l, (TextInput.batch ["가", "나다"]) = .batch l →
        ∃ l2, (TextInput.batch ["가!js", "나다!js"]) = .batch l2 ∧
          l2.length = l.length ∧ ∀ i : Nat, l2[i]? = l[i]?.map f) :=
  augment_shape_mirrors_input demoStages (.batch ["가", "나다"]) (.float 0)
    (.bool true) (.bool true) (.str "auto") "auto" (.bool false)
    (.batch ["가!js", "나다!js"]) (by rfl)
